import Mathlib

/-!
# Verification of the React-useState demo repository

The repository holds three JavaScript files:

* a React login form with client-side validation (`App.js`),
* a role-based-access-control (RBAC) Express + JWT server
  (`role-based-access-control.js`), and
* a single-user Express + JWT server.

Shallow embedding conventions used below:

* a JS object whose values are strings is an association list
  `List (String × String)`; property access is `getField`;
* an optional request field (possibly `undefined`) is `Option String`,
  and JS truthiness of such a value is `truthy` (both `undefined` and
  the empty string are falsy);
* JSON responses become Lean structures recording the HTTP status and
  the body fields the handlers actually set;
* environment variables are absent in the material, so each configured
  value takes its hardcoded fallback default.
-/

namespace Spec2Proof

/-- JS truthiness of a possibly-absent string value: `undefined` and `""`
are falsy, every other string is truthy. -/
def truthy : Option String → Bool
  | none => false
  | some s => s ≠ ""

/-- Property access `obj.key` on a JS object modelled as an association
list of string keys and string values. -/
def getField (obj : List (String × String)) (k : String) : Option String :=
  (obj.find? (fun kv => kv.1 == k)).map Prod.snd

/-- `allowed.includes(v)` where `v` may be `undefined`:
`includes(undefined)` is `false` on a list of strings. -/
def jsIncludes (allowed : List String) (v : Option String) : Bool :=
  match v with
  | some s => allowed.contains s
  | none => false

/-! ## The React form component (`App.js`) -/

/-- State of the form component: the two controlled inputs held in
`formData` and the `error` message string. -/
structure FormState where
  username : String
  password : String
  error : String
  deriving DecidableEq, Repr

/-- The fixed warning string set when a field is empty. -/
def requiredWarning : String := "⚠️ Both fields are required!"

/-- Observable outcome of one form submission: the next component state
and the alert message when the blocking alert fires. -/
structure SubmitOutcome where
  state : FormState
  alertMessage : Option String
  deriving DecidableEq, Repr

/-- `handleSubmit` from `App.js`: if either field is falsy, set the error
to the fixed warning and return; otherwise clear the error and alert
with the entered username. The input fields themselves are not touched. -/
def handleSubmit (s : FormState) : SubmitOutcome :=
  if s.username = "" ∨ s.password = "" then
    { state := { s with error := requiredWarning }, alertMessage := none }
  else
    { state := { s with error := "" },
      alertMessage := some ("Logged in as: " ++ s.username) }

/-! ## JWT primitives shared by both servers -/

/-- The signing secret; no environment override is present, so both
servers use the hardcoded fallback. -/
def JWT_SECRET : String := "please_change_this_secret_in_prod"

/-- A signed token: the payload object, the secret that produced the
signature, and the issued-at / expiry timestamps (seconds). -/
structure Token where
  payload : List (String × String)
  secret : String
  iat : Nat
  exp : Nat
  deriving DecidableEq, Repr

/-- Modelled from the spec: `jwt.sign(payload, secret, {expiresIn})` of
the jsonwebtoken dependency (not part of this repository) signs the
payload with the secret and embeds an expiry claim `iat + lifetime`. -/
def jwtSign (payload : List (String × String)) (secret : String)
    (lifetime : Nat) (now : Nat) : Token :=
  { payload := payload, secret := secret, iat := now, exp := now + lifetime }

/-- Modelled from the spec: `jwt.verify(token, secret)` of the
jsonwebtoken dependency checks the signature against the secret and the
expiry claim against the current time, and yields the decoded payload
on success and a failure reason otherwise. -/
def jwtVerify (t : Token) (secret : String) (now : Nat) :
    Except String (List (String × String)) :=
  if t.secret ≠ secret then .error "invalid signature"
  else if t.exp ≤ now then .error "jwt expired"
  else .ok t.payload

/-- A JSON error response: HTTP status plus the `error` body field. -/
structure ErrResponse where
  status : Nat
  error : String
  deriving DecidableEq, Repr

/-- Outcome of the header-format half of `verifyJwt`: either an early
401 rejection, or the extracted token string handed to `jwt.verify`. -/
inductive HeaderCheck where
  | rejected (r : ErrResponse)
  | token (tok : String)
  deriving DecidableEq, Repr

/-- Helper for `splitOnSpace`: `acc` holds the current part reversed. -/
def splitOnSpaceAux : List Char → List Char → List String
  | [], acc => [String.mk acc.reverse]
  | c :: cs, acc =>
      if c = ' ' then String.mk acc.reverse :: splitOnSpaceAux cs []
      else splitOnSpaceAux cs (c :: acc)

/-- JS `header.split(" ")`: split on every single space character,
keeping empty parts (so `""` gives `[""]` and `"a  b"` gives
`["a", "", "b"]`, as in JS). -/
def splitOnSpace (s : String) : List String :=
  splitOnSpaceAux s.data []

/-- The malformed-header message of `verifyJwt` (identical in both
server variants). -/
def malformedAuthMsg : String :=
  "Malformed Authorization header. Expected \x27Bearer <token>\x27"

/-- The header-format half of `verifyJwt`, identical in both variants:
a missing or empty `Authorization` header is rejected with 401; the
header is split on single spaces and anything other than exactly
`["Bearer", tok]` is rejected with 401 and the malformed-header
message; otherwise the token part is handed on. -/
def verifyJwtHeader (authHeader : Option String) : HeaderCheck :=
  let h := authHeader.getD ""
  if h = "" then .rejected ⟨401, "Missing Authorization header"⟩
  else
    match splitOnSpace h with
    | [scheme, tok] =>
        if scheme = "Bearer" then .token tok
        else .rejected ⟨401, malformedAuthMsg⟩
    | _ => .rejected ⟨401, malformedAuthMsg⟩

/-! ## The RBAC server (`role-based-access-control.js`) -/

/-- A hardcoded demo user of the RBAC variant. -/
structure RbacUser where
  username : String
  password : String
  role : String
  name : String
  deriving DecidableEq, Repr

/-- `DEMO_USERS` from the RBAC variant. -/
def DEMO_USERS : List RbacUser :=
  [ ⟨"admin1", "adminpass", "admin", "Admin One"⟩,
    ⟨"mod1", "modpass", "moderator", "Moderator One"⟩,
    ⟨"alice", "alicepw", "user", "Alice"⟩ ]

/-- The RBAC variant's configured expiry string (fallback default). -/
def RBAC_JWT_EXPIRES_IN : String := "2h"

/-- The RBAC expiry string "2h" in seconds. -/
def rbacLifetimeSeconds : Nat := 7200

/-- `signToken` of the RBAC variant. -/
def rbacSignToken (payload : List (String × String)) (now : Nat) : Token :=
  jwtSign payload JWT_SECRET rbacLifetimeSeconds now

/-- Response of `POST /login` in either variant: HTTP status plus the
body fields a branch may set (`error`, `token`, `expiresIn`, `user`). -/
structure LoginResponse where
  status : Nat
  error : Option String
  token : Option Token
  expiresIn : Option String
  user : Option (List (String × String))
  deriving DecidableEq, Repr

/-- The shared invalid-credentials message of both login handlers. -/
def invalidCredsMsg : String := "Invalid username or password"

/-- `POST /login` of the RBAC variant, with the credential list as a
parameter (the server applies it to `DEMO_USERS`): falsy username or
password gives 400; no exact match in the list gives 401; on a match
the payload `{username, role, name}` is signed and returned together
with the expiry string and a user summary. -/
def rbacLoginWith (users : List RbacUser)
    (username password : Option String) (now : Nat) : LoginResponse :=
  if ¬ truthy username ∨ ¬ truthy password then
    { status := 400, error := some "username and password required in body",
      token := none, expiresIn := none, user := none }
  else
    let u := username.getD ""
    let p := password.getD ""
    match users.find? (fun x => x.username == u && x.password == p) with
    | none =>
        { status := 401, error := some invalidCredsMsg,
          token := none, expiresIn := none, user := none }
    | some user =>
        { status := 200, error := none,
          token := some (rbacSignToken
            [("username", user.username), ("role", user.role),
             ("name", user.name)] now),
          expiresIn := some RBAC_JWT_EXPIRES_IN,
          user := some [("username", user.username), ("role", user.role),
                        ("name", user.name)] }

/-- `POST /login` of the RBAC variant on its hardcoded `DEMO_USERS`. -/
def rbacLogin (username password : Option String) (now : Nat) : LoginResponse :=
  rbacLoginWith DEMO_USERS username password now

/-- `authorizeRoles(...allowedRoles)` of the RBAC variant, applied to
`req.user`: a missing user or a falsy role gives 403 (no role present);
a role outside the allow-list gives 403 (insufficient role); otherwise
the handler runs (`none`). -/
def authorizeRoles (allowedRoles : List String)
    (user : Option (List (String × String))) : Option ErrResponse :=
  match user with
  | none => some ⟨403, "Access denied (no role present)"⟩
  | some u =>
      if ¬ truthy (getField u "role") then
        some ⟨403, "Access denied (no role present)"⟩
      else if ¬ jsIncludes allowedRoles (getField u "role") then
        some ⟨403, "Access denied (insufficient role)"⟩
      else none

/-- Result of a role-gated route given the verified, decoded payload. -/
inductive RouteResult where
  | denied (r : ErrResponse)
  | granted (message : String) (user : List (String × String))
  deriving DecidableEq, Repr

/-- `GET /moderator`: `authorizeRoles("moderator", "admin")` then the
dashboard handler. -/
def moderatorRoute (user : List (String × String)) : RouteResult :=
  match authorizeRoles ["moderator", "admin"] (some user) with
  | some r => .denied r
  | none => .granted "Moderator dashboard" user

/-- `GET /admin`: `authorizeRoles("admin")` then the dashboard handler. -/
def adminRoute (user : List (String × String)) : RouteResult :=
  match authorizeRoles ["admin"] (some user) with
  | some r => .denied r
  | none => .granted "Admin dashboard" user

/-- `POST /moderation/action`: inline check that `req.user?.role` is in
`["moderator", "admin"]`, else 403. -/
def moderationAction (user : List (String × String)) : RouteResult :=
  if ¬ jsIncludes ["moderator", "admin"] (getField user "role") then
    .denied ⟨403, "Not allowed to perform moderation actions"⟩
  else
    .granted ("Action performed by "
      ++ (getField user "username").getD "undefined"
      ++ " (" ++ (getField user "role").getD "undefined" ++ ")") user

/-! ## The single-user server -/

/-- The hardcoded demo user of the single-user variant. -/
structure SingleUser where
  username : String
  password : String
  name : String
  email : String
  deriving DecidableEq, Repr

/-- `DEMO_USER` from the single-user variant. -/
def DEMO_USER : SingleUser := ⟨"demo", "secret123", "Demo User", "demo@example.com"⟩

/-- The single-user variant's configured expiry string (fallback default). -/
def SINGLE_JWT_EXPIRES_IN : String := "1h"

/-- The single-user expiry string "1h" in seconds. -/
def singleLifetimeSeconds : Nat := 3600

/-- `signToken` of the single-user variant. -/
def singleSignToken (payload : List (String × String)) (now : Nat) : Token :=
  jwtSign payload JWT_SECRET singleLifetimeSeconds now

/-- `POST /login` of the single-user variant, with the demo user as a
parameter (the server applies it to `DEMO_USER`): falsy username or
password gives 400; any mismatch with the demo credentials gives 401;
on a match the payload `{username, name, email}` is signed and the body
is `{token, expiresIn}` with no user summary. -/
def singleLoginWith (duser : SingleUser)
    (username password : Option String) (now : Nat) : LoginResponse :=
  if ¬ truthy username ∨ ¬ truthy password then
    { status := 400, error := some "username and password required",
      token := none, expiresIn := none, user := none }
  else if username.getD "" ≠ duser.username ∨ password.getD "" ≠ duser.password then
    { status := 401, error := some invalidCredsMsg,
      token := none, expiresIn := none, user := none }
  else
    { status := 200, error := none,
      token := some (singleSignToken
        [("username", duser.username), ("name", duser.name),
         ("email", duser.email)] now),
      expiresIn := some SINGLE_JWT_EXPIRES_IN, user := none }

/-- `POST /login` of the single-user variant on its hardcoded `DEMO_USER`. -/
def singleLogin (username password : Option String) (now : Nat) : LoginResponse :=
  singleLoginWith DEMO_USER username password now

/-! ## Spec-side predicates -/

/-- Does `pat` occur as a prefix of the second list? -/
def startsWithChars : List Char → List Char → Bool
  | [], _ => true
  | _ :: _, [] => false
  | p :: ps, c :: cs => p == c && startsWithChars ps cs

/-- Does `pat` occur as a contiguous run anywhere in the second list? -/
def containsChars (pat : List Char) : List Char → Bool
  | [] => startsWithChars pat []
  | c :: cs => startsWithChars pat (c :: cs) || containsChars pat cs

/-- Whether a message names the expected format, i.e. contains the
substring `Bearer <token>`. -/
def mentionsBearerFormat (s : String) : Bool :=
  containsChars ("Bearer <token>".data) s.data

/-- Spec-side restatement of the accepted header shape: formatted
exactly as `Bearer <token>` — splitting on spaces yields exactly two
parts whose first is `Bearer`. -/
def wellFormedAuthHeader (h : String) : Bool :=
  match splitOnSpace h with
  | [scheme, _] => scheme == "Bearer"
  | _ => false

/-! ## Helper lemmas -/

/-- A non-empty credential pair matching no record in the list gets the
401 invalid-credentials response from the RBAC login. -/
theorem rbacLogin_eq_401 (u p : String) (now : Nat)
    (hu : u ≠ "") (hp : p ≠ "")
    (hno : ∀ rec ∈ DEMO_USERS, ¬(rec.username = u ∧ rec.password = p)) :
    rbacLogin (some u) (some p) now =
      { status := 401, error := some invalidCredsMsg,
        token := none, expiresIn := none, user := none } := by
  have hfind : DEMO_USERS.find? (fun x => x.username == u && x.password == p) = none := by
    rw [List.find?_eq_none]
    intro x hx
    simp only [Bool.and_eq_true, beq_iff_eq, not_and]
    intro h1 h2
    exact hno x hx ⟨h1, h2⟩
  unfold rbacLogin rbacLoginWith
  simp [truthy, hu, hp, hfind]

/-- A non-empty credential pair differing from the demo credentials gets
the 401 invalid-credentials response from the single-user login. -/
theorem singleLogin_eq_401 (u p : String) (now : Nat)
    (hu : u ≠ "") (hp : p ≠ "")
    (hmm : u ≠ DEMO_USER.username ∨ p ≠ DEMO_USER.password) :
    singleLogin (some u) (some p) now =
      { status := 401, error := some invalidCredsMsg,
        token := none, expiresIn := none, user := none } := by
  unfold singleLogin singleLoginWith
  simp only [Option.getD_some]
  rw [if_neg, if_pos hmm]
  intro hcon
  rcases hcon with h | h <;> simp [truthy, hu, hp] at h

/-- A token signed with the server secret decodes to its payload at any
time before its expiry claim. -/
theorem jwtVerify_before_expiry (t : Token) (now : Nat)
    (hsec : t.secret = JWT_SECRET) (hexp : now < t.exp) :
    jwtVerify t JWT_SECRET now = .ok t.payload := by
  unfold jwtVerify
  rw [if_neg (by simp [hsec]), if_neg (by omega)]

/-! ## Claims -/

/-- Claim C1: in the RBAC variant, for every verified token (i.e. every
decoded payload reaching the role gate): role "user" is denied with 403
on both `GET /moderator` and `GET /admin`; role "admin" succeeds on
both; role "moderator" succeeds on `/moderator` and is denied with 403
on `/admin`. -/
theorem rbac_role_matrix (p : List (String × String)) :
    (getField p "role" = some "user" →
      moderatorRoute p = .denied ⟨403, "Access denied (insufficient role)"⟩ ∧
      adminRoute p = .denied ⟨403, "Access denied (insufficient role)"⟩) ∧
    (getField p "role" = some "admin" →
      moderatorRoute p = .granted "Moderator dashboard" p ∧
      adminRoute p = .granted "Admin dashboard" p) ∧
    (getField p "role" = some "moderator" →
      moderatorRoute p = .granted "Moderator dashboard" p ∧
      adminRoute p = .denied ⟨403, "Access denied (insufficient role)"⟩) := by
  refine ⟨fun h => ?_, fun h => ?_, fun h => ?_⟩ <;>
    simp [moderatorRoute, adminRoute, authorizeRoles, truthy, jsIncludes, h]

/-- Witness for C1: the payload minted for the demo user `alice`
(role "user") is denied on both role-gated dashboards. -/
theorem rbac_role_matrix_witness :
    moderatorRoute [("username", "alice"), ("role", "user"), ("name", "Alice")] =
      .denied ⟨403, "Access denied (insufficient role)"⟩ ∧
    adminRoute [("username", "alice"), ("role", "user"), ("name", "Alice")] =
      .denied ⟨403, "Access denied (insufficient role)"⟩ :=
  (rbac_role_matrix [("username", "alice"), ("role", "user"), ("name", "Alice")]).1 rfl

/-- Claim C7: submitting the form with either field empty sets the fixed
warning, fires no alert and changes no field; submitting with both
fields non-empty clears any prior error and fires the alert naming the
entered username. -/
theorem handleSubmit_behavior (s : FormState) :
    ((s.username = "" ∨ s.password = "") →
      handleSubmit s =
        { state := { username := s.username, password := s.password,
                     error := requiredWarning }, alertMessage := none }) ∧
    (s.username ≠ "" → s.password ≠ "" →
      handleSubmit s =
        { state := { username := s.username, password := s.password, error := "" },
          alertMessage := some ("Logged in as: " ++ s.username) }) := by
  constructor
  · intro h
    simp [handleSubmit, h]
  · intro h1 h2
    simp [handleSubmit, h1, h2]

/-- Witness for C7: an empty password keeps the fields and shows the
warning; two filled fields clear a prior warning and alert the
username. -/
theorem handleSubmit_behavior_witness :
    handleSubmit ⟨"ann", "", "old"⟩ =
      { state := { username := "ann", password := "", error := requiredWarning },
        alertMessage := none } ∧
    handleSubmit ⟨"ann", "pw", requiredWarning⟩ =
      { state := { username := "ann", password := "pw", error := "" },
        alertMessage := some ("Logged in as: " ++ "ann") } :=
  ⟨(handleSubmit_behavior ⟨"ann", "", "old"⟩).1 (Or.inr rfl),
   (handleSubmit_behavior ⟨"ann", "pw", requiredWarning⟩).2 (by decide) (by decide)⟩

/-- Claim C9: in the RBAC variant, a validly decoded payload with no
role field is rejected with 403 (not crashed on, not let through) by
`GET /moderator`, `GET /admin` and `POST /moderation/action`. -/
theorem roleless_token_403 (p : List (String × String))
    (hrole : getField p "role" = none) :
    moderatorRoute p = .denied ⟨403, "Access denied (no role present)"⟩ ∧
    adminRoute p = .denied ⟨403, "Access denied (no role present)"⟩ ∧
    moderationAction p = .denied ⟨403, "Not allowed to perform moderation actions"⟩ := by
  refine ⟨?_, ?_, ?_⟩ <;>
    simp [moderatorRoute, adminRoute, moderationAction, authorizeRoles,
      truthy, jsIncludes, hrole]

/-- Witness for C9: the payload shape minted by the single-user variant
(no role key) is denied with 403 on all three role-gated routes. -/
theorem roleless_token_403_witness :
    moderatorRoute [("username", "demo"), ("name", "Demo User"),
        ("email", "demo@example.com")] =
      .denied ⟨403, "Access denied (no role present)"⟩ ∧
    adminRoute [("username", "demo"), ("name", "Demo User"),
        ("email", "demo@example.com")] =
      .denied ⟨403, "Access denied (no role present)"⟩ ∧
    moderationAction [("username", "demo"), ("name", "Demo User"),
        ("email", "demo@example.com")] =
      .denied ⟨403, "Not allowed to perform moderation actions"⟩ :=
  roleless_token_403
    [("username", "demo"), ("name", "Demo User"), ("email", "demo@example.com")] rfl

/-- Claim C10: a login request carrying the empty string as username or
as password gets 400 with no token in both variants, and (shown by
quantifying over the credential data) without consulting the
credentials at all. -/
theorem empty_field_400 (users : List RbacUser) (duser : SingleUser)
    (other : Option String) (now : Nat) :
    rbacLoginWith users (some "") other now =
      { status := 400, error := some "username and password required in body",
        token := none, expiresIn := none, user := none } ∧
    rbacLoginWith users other (some "") now =
      { status := 400, error := some "username and password required in body",
        token := none, expiresIn := none, user := none } ∧
    singleLoginWith duser (some "") other now =
      { status := 400, error := some "username and password required",
        token := none, expiresIn := none, user := none } ∧
    singleLoginWith duser other (some "") now =
      { status := 400, error := some "username and password required",
        token := none, expiresIn := none, user := none } := by
  refine ⟨?_, ?_, ?_, ?_⟩ <;> simp [rbacLoginWith, singleLoginWith, truthy]

/-- Claim C2: every token minted by a successful `/login` carries exactly
the allow-listed payload fields — `username, role, name` in the RBAC
variant, `username, name, email` in the single-user variant — and never
a `password` field. -/
theorem login_payload_allowlist (username password : Option String)
    (now : Nat) (t : Token) :
    ((rbacLogin username password now).token = some t →
      t.payload.map Prod.fst = ["username", "role", "name"] ∧
      "password" ∉ t.payload.map Prod.fst) ∧
    ((singleLogin username password now).token = some t →
      t.payload.map Prod.fst = ["username", "name", "email"] ∧
      "password" ∉ t.payload.map Prod.fst) := by
  constructor
  · intro h
    unfold rbacLogin rbacLoginWith at h
    split at h
    · simp at h
    · dsimp only at h
      split at h
      · simp at h
      · simp only [Option.some.injEq] at h
        subst h
        simp [rbacSignToken, jwtSign]
  · intro h
    unfold singleLogin singleLoginWith at h
    split at h
    · simp at h
    · split at h
      · simp at h
      · simp only [Option.some.injEq] at h
        subst h
        simp [singleSignToken, jwtSign]

/-- Witness for C2: the token minted for `admin1` has exactly the keys
`username, role, name` and no `password` key. -/
theorem login_payload_allowlist_witness :
    (rbacSignToken [("username", "admin1"), ("role", "admin"),
        ("name", "Admin One")] 0).payload.map Prod.fst =
      ["username", "role", "name"] ∧
    "password" ∉ (rbacSignToken [("username", "admin1"), ("role", "admin"),
        ("name", "Admin One")] 0).payload.map Prod.fst :=
  (login_payload_allowlist (some "admin1") (some "adminpass") 0
    (rbacSignToken [("username", "admin1"), ("role", "admin"),
      ("name", "Admin One")] 0)).1 (by decide)

/-- Counterexample to Claim C3 as stated: the pair `("", "x")` is not in
the fixed credential list, yet `/login` answers 400 (missing fields),
not 401. -/
theorem login_401_counterexample :
    (∀ u ∈ DEMO_USERS, ¬(u.username = "" ∧ u.password = "x")) ∧
    (rbacLogin (some "") (some "x") 0).status = 400 ∧
    ¬ (rbacLogin (some "") (some "x") 0).status = 401 := by
  refine ⟨by decide, by decide, by decide⟩

/-- Claim C3 as amended, per variant: for every credential pair with
both components non-empty, if the pair is not in the RBAC variant's
fixed list, its `/login` answers 401 with the invalid-credentials
message and no token; and if the pair differs from the single-user
variant's credentials, its `/login` does the same. -/
theorem login_nonmatching_401 (u p : String) (now : Nat)
    (hu : u ≠ "") (hp : p ≠ "") :
    ((∀ rec ∈ DEMO_USERS, ¬(rec.username = u ∧ rec.password = p)) →
      rbacLogin (some u) (some p) now =
        { status := 401, error := some invalidCredsMsg,
          token := none, expiresIn := none, user := none }) ∧
    (¬(u = DEMO_USER.username ∧ p = DEMO_USER.password) →
      singleLogin (some u) (some p) now =
        { status := 401, error := some invalidCredsMsg,
          token := none, expiresIn := none, user := none }) := by
  constructor
  · exact rbacLogin_eq_401 u p now hu hp
  · intro hsingle
    refine singleLogin_eq_401 u p now hu hp ?_
    by_contra hc
    push_neg at hc
    exact hsingle ⟨hc.1, hc.2⟩

/-- Witness for C3 (amended): the single-user credentials are not in
the RBAC list, and an RBAC credential pair is not the single-user pair;
both get 401 from the variant that does not know them. -/
theorem login_nonmatching_401_witness :
    rbacLogin (some "demo") (some "secret123") 0 =
      { status := 401, error := some invalidCredsMsg,
        token := none, expiresIn := none, user := none } ∧
    singleLogin (some "alice") (some "alicepw") 0 =
      { status := 401, error := some invalidCredsMsg,
        token := none, expiresIn := none, user := none } :=
  ⟨(login_nonmatching_401 "demo" "secret123" 0 (by decide) (by decide)).1
      (by decide),
   (login_nonmatching_401 "alice" "alicepw" 0 (by decide) (by decide)).2
      (by decide)⟩

/-- Counterexample to Claim C4 as stated: a successful login on the
single-user variant answers 200 with no user summary in the body. -/
theorem login_body_counterexample :
    (singleLogin (some "demo") (some "secret123") 0).status = 200 ∧
    (singleLogin (some "demo") (some "secret123") 0).user = none := by
  refine ⟨by decide, by decide⟩

/-- Claim C4 as amended: every successful `/login` response carries the
token and the configured expiry string as `expiresIn`; the RBAC variant
additionally carries a user summary, while the single-user variant
carries none. -/
theorem login_success_body (username password : Option String) (now : Nat) :
    ((rbacLogin username password now).status = 200 →
      ∃ t usr, rbacLogin username password now =
        { status := 200, error := none, token := some t,
          expiresIn := some RBAC_JWT_EXPIRES_IN, user := some usr }) ∧
    ((singleLogin username password now).status = 200 →
      ∃ t, singleLogin username password now =
        { status := 200, error := none, token := some t,
          expiresIn := some SINGLE_JWT_EXPIRES_IN, user := none }) := by
  constructor
  · unfold rbacLogin rbacLoginWith
    split
    · intro h
      simp at h
    · dsimp only
      split
      · intro h
        simp at h
      · intro _
        exact ⟨_, _, rfl⟩
  · unfold singleLogin singleLoginWith
    split
    · intro h
      simp at h
    · split
      · intro h
        simp at h
      · intro _
        exact ⟨_, rfl⟩

/-- Witness for C4 (amended): concrete successful logins in both
variants produce the stated body shapes. -/
theorem login_success_body_witness :
    (∃ t usr, rbacLogin (some "admin1") (some "adminpass") 0 =
      { status := 200, error := none, token := some t,
        expiresIn := some RBAC_JWT_EXPIRES_IN, user := some usr }) ∧
    (∃ t, singleLogin (some "demo") (some "secret123") 0 =
      { status := 200, error := none, token := some t,
        expiresIn := some SINGLE_JWT_EXPIRES_IN, user := none }) :=
  ⟨(login_success_body (some "admin1") (some "adminpass") 0).1 (by decide),
   (login_success_body (some "demo") (some "secret123") 0).2 (by decide)⟩

/-- Counterexample to Claim C5 as stated: a missing `Authorization`
header is rejected with 401, but its error message does not name the
expected `Bearer <token>` format. -/
theorem auth_header_counterexample :
    verifyJwtHeader none = .rejected ⟨401, "Missing Authorization header"⟩ ∧
    mentionsBearerFormat "Missing Authorization header" = false := by
  refine ⟨by decide, by decide⟩

/-- Claim C5 as amended: every request whose `Authorization` header is
not formatted exactly as `Bearer <token>` is rejected with 401 before
the handler runs, with an exact case split: a missing or empty header
gets the missing-header message, and every other malformation (wrong
scheme word, part count other than two) gets the malformed-header
message, which names the expected `Bearer <token>` format. -/
theorem auth_header_rejections (h : Option String)
    (hbad : wellFormedAuthHeader (h.getD "") = false) :
    (h.getD "" = "" →
      verifyJwtHeader h = .rejected ⟨401, "Missing Authorization header"⟩) ∧
    (h.getD "" ≠ "" →
      verifyJwtHeader h = .rejected ⟨401, malformedAuthMsg⟩ ∧
      mentionsBearerFormat malformedAuthMsg = true) := by
  have hfmt : mentionsBearerFormat malformedAuthMsg = true := by decide
  constructor
  · intro hemp
    unfold verifyJwtHeader
    dsimp only
    rw [if_pos hemp]
  · intro hemp
    refine ⟨?_, hfmt⟩
    unfold verifyJwtHeader
    dsimp only
    rw [if_neg hemp]
    unfold wellFormedAuthHeader at hbad
    rcases hsp : splitOnSpace (h.getD "") with _ | ⟨scheme, _ | ⟨tok, _ | ⟨x, rest⟩⟩⟩
    · rfl
    · rfl
    · rw [hsp] at hbad
      dsimp only at hbad ⊢
      have hb : ¬ scheme = "Bearer" := by
        intro hc
        subst hc
        simp at hbad
      rw [if_neg hb]
    · rfl

/-- Witness for C5 (amended): the header `Token abc` (wrong scheme word)
is rejected with 401 and the message naming the expected format. -/
theorem auth_header_rejections_witness :
    verifyJwtHeader (some "Token abc") = .rejected ⟨401, malformedAuthMsg⟩ ∧
    mentionsBearerFormat malformedAuthMsg = true :=
  (auth_header_rejections (some "Token abc") (by decide)).2 (by decide)

/-- Claim C6, per variant: two failed logins with present, non-empty
fields — one whose username matches no record of the variant, one with
a matching username but a wrong password — produce the very same 401
response, so the response does not reveal which field was wrong. Each
variant's conclusion carries only that variant's hypotheses. -/
theorem login_failure_indistinguishable
    (u1 p1 u2 p2 : String) (now : Nat) :
    (u1 ≠ "" → p1 ≠ "" → u2 ≠ "" → p2 ≠ "" →
     (∀ rec ∈ DEMO_USERS, rec.username ≠ u1) →
     (∃ rec ∈ DEMO_USERS, rec.username = u2) →
     (∀ rec ∈ DEMO_USERS, ¬(rec.username = u2 ∧ rec.password = p2)) →
      rbacLogin (some u1) (some p1) now = rbacLogin (some u2) (some p2) now ∧
      (rbacLogin (some u1) (some p1) now).status = 401) ∧
    (u1 ≠ "" → p1 ≠ "" → p2 ≠ "" →
     u1 ≠ DEMO_USER.username → p2 ≠ DEMO_USER.password →
      singleLogin (some u1) (some p1) now =
        singleLogin (some DEMO_USER.username) (some p2) now ∧
      (singleLogin (some u1) (some p1) now).status = 401) := by
  constructor
  · intro hu1 hp1 hu2 hp2 hwrongUser _hrightUser hwrongPw
    have e1 := rbacLogin_eq_401 u1 p1 now hu1 hp1
      (fun x hx hand => hwrongUser x hx hand.1)
    have e2 := rbacLogin_eq_401 u2 p2 now hu2 hp2 hwrongPw
    exact ⟨e1.trans e2.symm, by rw [e1]⟩
  · intro hu1 hp1 hp2 hsu hsp
    have e3 := singleLogin_eq_401 u1 p1 now hu1 hp1 (Or.inl hsu)
    have e4 := singleLogin_eq_401 DEMO_USER.username p2 now (by decide) hp2
      (Or.inr hsp)
    exact ⟨e3.trans e4.symm, by rw [e3]⟩

/-- Witness for C6: against the RBAC variant, unknown user `demo`
versus known user `alice` with a wrong password get identical 401
responses; against the single-user variant, unknown user `alice` versus
the known `demo` with a wrong password do too. -/
theorem login_failure_indistinguishable_witness :
    (rbacLogin (some "demo") (some "x") 0 =
        rbacLogin (some "alice") (some "wrong") 0 ∧
      (rbacLogin (some "demo") (some "x") 0).status = 401) ∧
    (singleLogin (some "alice") (some "alicepw") 0 =
        singleLogin (some DEMO_USER.username) (some "wrong") 0 ∧
      (singleLogin (some "alice") (some "alicepw") 0).status = 401) :=
  ⟨(login_failure_indistinguishable "demo" "x" "alice" "wrong" 0).1
      (by decide) (by decide) (by decide) (by decide) (by decide) (by decide)
      (by decide),
   (login_failure_indistinguishable "alice" "alicepw" "x" "wrong" 0).2
      (by decide) (by decide) (by decide) (by decide) (by decide)⟩

/-- Claim C8: a token issued by a successful login (in either variant,
over an arbitrary credential table) is accepted by token verification
at every time before its expiry claim, yielding exactly its payload;
verification takes only the token, the secret and the clock, so no
later change to any server state can affect it. -/
theorem issued_token_accepted (users : List RbacUser) (duser : SingleUser)
    (username password : Option String) (now : Nat) (t : Token) :
    ((rbacLoginWith users username password now).token = some t →
      ∀ later, later < t.exp → jwtVerify t JWT_SECRET later = .ok t.payload) ∧
    ((singleLoginWith duser username password now).token = some t →
      ∀ later, later < t.exp → jwtVerify t JWT_SECRET later = .ok t.payload) := by
  constructor
  · intro h later hlt
    have hsec : t.secret = JWT_SECRET := by
      unfold rbacLoginWith at h
      split at h
      · simp at h
      · dsimp only at h
        split at h
        · simp at h
        · simp only [Option.some.injEq] at h
          subst h
          rfl
    exact jwtVerify_before_expiry t later hsec hlt
  · intro h later hlt
    have hsec : t.secret = JWT_SECRET := by
      unfold singleLoginWith at h
      split at h
      · simp at h
      · split at h
        · simp at h
        · simp only [Option.some.injEq] at h
          subst h
          rfl
    exact jwtVerify_before_expiry t later hsec hlt

/-- Witness for C8: the token minted for `admin1` at time 0 still
verifies at time 3600, well before its 7200-second expiry. -/
theorem issued_token_accepted_witness :
    jwtVerify (rbacSignToken [("username", "admin1"), ("role", "admin"),
        ("name", "Admin One")] 0) JWT_SECRET 3600 =
      .ok [("username", "admin1"), ("role", "admin"), ("name", "Admin One")] :=
  (issued_token_accepted DEMO_USERS DEMO_USER (some "admin1")
      (some "adminpass") 0
      (rbacSignToken [("username", "admin1"), ("role", "admin"),
        ("name", "Admin One")] 0)).1
    (by decide) 3600 (by decide)

end Spec2Proof
